import Mathlib

/-
  Shallow embedding of the `SmartAccountProvider` class from
  src/site/smart-accounts/signers/capsule.md (the ERC-4337 user-operation
  construction pipeline, fee-bid arithmetic, validation gate, signing and
  submission sequencing, and the receipt-confirmation retry loop).

  Conventions of the embedding:
  - JS `bigint` values are modelled as `Int` (arbitrary precision, signed);
    nonnegative protocol quantities (nonce, gas units) as `Nat`.
  - Fields of the in-construction `UserOperationStruct` that may be unset are
    `Option`s; JS `undefined` is `none`.
  - JS truthiness on bigint fields (`!x` is true for both `undefined` and `0n`)
    is modelled by `truthyInt`.
  - Asynchronous calls are pure function fields of the external collaborator
    records (`Account`, `BundlerClient`); every provider operation returns its
    result together with the list of external calls it performed (`CallEvent`),
    in order, so that "before any bundler call" claims are statable.
  - Thrown errors are `Except.error` of a `ProviderError` constructor named
    after the error taxonomy.
-/

namespace AASdk

/-- The in-construction user operation (source type `UserOperationStruct`);
every field may still be unset while the middleware pipeline runs. -/
structure UserOperationStruct where
  sender : Option String
  nonce : Option Nat
  initCode : Option String
  callData : Option String
  callGasLimit : Option Nat
  verificationGasLimit : Option Nat
  preVerificationGas : Option Nat
  maxFeePerGas : Option Int
  maxPriorityFeePerGas : Option Int
  paymasterAndData : Option String
  signature : Option String
deriving DecidableEq, Repr

/-- The hex-encoded wire form produced by `deepHexlify` (source type
`UserOperationRequest`), before the completeness check: every field is a hex
string when set. -/
structure UserOperationRequest where
  sender : Option String
  nonce : Option String
  initCode : Option String
  callData : Option String
  callGasLimit : Option String
  verificationGasLimit : Option String
  preVerificationGas : Option String
  maxFeePerGas : Option String
  maxPriorityFeePerGas : Option String
  paymasterAndData : Option String
  signature : Option String
deriving DecidableEq, Repr

/-- Gas estimates returned by the bundler (`estimateUserOperationGas`). -/
structure GasEstimates where
  callGasLimit : Nat
  verificationGasLimit : Nat
  preVerificationGas : Nat
deriving DecidableEq, Repr

/-- Combined fee data returned by the bundler (`getFeeData`); either field may
be absent. -/
structure FeeData where
  maxFeePerGas : Option Int
  maxPriorityFeePerGas : Option Int
deriving DecidableEq, Repr

/-- A chain transaction receipt, as referenced through
`receipt.receipt.transactionHash` in the poller. -/
structure TransactionReceipt where
  transactionHash : String
deriving DecidableEq, Repr

/-- A user-operation receipt returned by `getUserOperationReceipt`. -/
structure UserOperationReceipt where
  receipt : TransactionReceipt
deriving DecidableEq, Repr

/-- A chain transaction as returned by `getTransaction`. -/
structure Transaction where
  hash : String
deriving DecidableEq, Repr

/-- Outcome of one `getUserOperationReceipt` call: the promise may resolve to
a receipt, resolve to a null-ish "not found", or reject (a lookup error). -/
inductive ReceiptLookupResult where
  | notFound
  | lookupFailed
  | found (receipt : UserOperationReceipt)
deriving DecidableEq, Repr

/-- The `.catch(() => null)` applied to the receipt lookup followed by the
`if (receipt)` truthiness test: both "not found" and a rejected lookup
collapse to `none`. -/
def catchToNull : ReceiptLookupResult → Option UserOperationReceipt
  | .found r => some r
  | .notFound => none
  | .lookupFailed => none

/-- Error taxonomy of the provider, named after the specified errors:
`accountNotConnected` = AccountNotConnectedError, `invalidRecipient` =
InvalidRecipientError, `signerMismatch` = UnsupportedSignerMismatchError,
`invalidFeeData` = InvalidFeeDataError, `incompleteRequest` =
IncompleteRequestError (carrying the serialized partial request),
`confirmationTimeout` = ConfirmationTimeoutError. `badParams` models the
TypeError a malformed `params` array would raise in the source and is outside
the specified taxonomy. -/
inductive ProviderError where
  | accountNotConnected
  | invalidRecipient
  | signerMismatch
  | invalidFeeData
  | incompleteRequest (request : UserOperationRequest)
  | confirmationTimeout
  | badParams
deriving DecidableEq, Repr

/-- A conventional transaction-shaped request (source `RpcTransactionRequest`):
`toAddress` models the source field `to` (`to` is reserved in Lean), `value`
the already-decoded integer value of the hex-encoded `value` field. -/
structure RpcTransactionRequest where
  toAddress : Option String
  data : Option String
  value : Option Int
deriving DecidableEq, Repr

/-- One parameter of a raw RPC call: either a string (data or address) or a
transaction-shaped object. -/
inductive RpcParam where
  | str (s : String)
  | tx (t : RpcTransactionRequest)
deriving DecidableEq, Repr

/-- An external call performed by a provider operation, recorded in order.
`delay ms` is one `setTimeout` suspension of the poller. -/
inductive CallEvent where
  | estimateGas
  | getMaxPriorityFee
  | getFeeDataCall
  | submit
  | getReceiptCall (i : Nat)
  | getTransactionCall (h : String)
  | signMessageCall (m : String)
  | rpcRequest (method : String)
  | delay (ms : Nat)
deriving DecidableEq, Repr

/-- The bound account capability (source `BaseSmartContractAccount`,
consumed at its interface boundary): address, nonce, init code, call-data
encoding, dummy signature and message signing. -/
structure Account where
  address : String
  nonce : Nat
  initCode : String
  encodeExecute : String → Int → String → String
  dummySignature : String
  signMessage : String → String

/-- The bundler client capability (source `PublicErc4337Client`, consumed at
its interface boundary). `getUserOperationReceipt` is indexed by the poll
attempt number so that stubs returning "not found" for the first k calls are
expressible; `request` is the raw RPC forwarding endpoint, its response
modelled as an opaque string. -/
structure BundlerClient where
  estimateUserOperationGas : UserOperationRequest → GasEstimates
  getMaxPriorityFeePerGas : Int
  getFeeData : FeeData
  sendUserOperation : UserOperationRequest → String
  getUserOperationReceipt : Nat → String → ReceiptLookupResult
  getTransaction : String → Transaction
  request : String → List RpcParam → String

/-- JS truthiness of a possibly-absent bigint: `!x` is true exactly when the
value is `undefined` or `0n`, so `x` is truthy when present and nonzero. -/
def truthyInt : Option Int → Bool
  | none => false
  | some n => n != 0

/-- Hex encoding of a natural number (the numeric leg of `deepHexlify`). -/
def toHexNat (n : Nat) : String :=
  "0x" ++ String.mk (Nat.toDigits 16 n)

/-- Hex encoding of an integer. The source hexlifies nonnegative bigints; a
negative value (impossible on the specified inputs) is given a signed form to
keep the function total. -/
def toHexInt (n : Int) : String :=
  if 0 ≤ n then toHexNat n.toNat else "-" ++ toHexNat (-n).toNat

/-- Modelled from the spec: `deepHexlify` (utils.js, outside src/) encodes
every numeric field of the draft to its canonical hex form, leaving byte-string
fields as they are and unset fields unset. -/
def deepHexlify (s : UserOperationStruct) : UserOperationRequest where
  sender := s.sender
  nonce := s.nonce.map toHexNat
  initCode := s.initCode
  callData := s.callData
  callGasLimit := s.callGasLimit.map toHexNat
  verificationGasLimit := s.verificationGasLimit.map toHexNat
  preVerificationGas := s.preVerificationGas.map toHexNat
  maxFeePerGas := s.maxFeePerGas.map toHexInt
  maxPriorityFeePerGas := s.maxPriorityFeePerGas.map toHexInt
  paymasterAndData := s.paymasterAndData
  signature := s.signature

/-- Modelled from the spec: `isValidRequest` (types.js, outside src/) checks
that every field of the hexlified request is set — "any field still
undefined/unset causes failure". -/
def isValidRequest (r : UserOperationRequest) : Bool :=
  r.sender.isSome && r.nonce.isSome && r.initCode.isSome && r.callData.isSome &&
  r.callGasLimit.isSome && r.verificationGasLimit.isSome &&
  r.preVerificationGas.isSome && r.maxFeePerGas.isSome &&
  r.maxPriorityFeePerGas.isSome && r.paymasterAndData.isSome &&
  r.signature.isSome

/-- Every field of the draft is set. -/
def isCompleteDraft (s : UserOperationStruct) : Bool :=
  s.sender.isSome && s.nonce.isSome && s.initCode.isSome && s.callData.isSome &&
  s.callGasLimit.isSome && s.verificationGasLimit.isSome &&
  s.preVerificationGas.isSome && s.maxFeePerGas.isSome &&
  s.maxPriorityFeePerGas.isSome && s.paymasterAndData.isSome &&
  s.signature.isSome

/-- Modelled from the spec: `getUserOperationHash` (utils.js, outside src/) is
a deterministic structural hash over the encoded request fields, the
entry-point address and the chain id; its exact byte layout is entry-point
protocol defined and no claim depends on it, so it is modelled as a
deterministic encoding of its three inputs. -/
def getUserOperationHash (r : UserOperationRequest) (entryPointAddress : String)
    (chainId : Nat) : String :=
  "uoHash:" ++ entryPointAddress ++ ":" ++ toString chainId ++ ":" ++
    (r.sender.getD "") ++ ":" ++ (r.nonce.getD "") ++ ":" ++
    (r.initCode.getD "") ++ ":" ++ (r.callData.getD "") ++ ":" ++
    (r.callGasLimit.getD "") ++ ":" ++ (r.verificationGasLimit.getD "") ++ ":" ++
    (r.preVerificationGas.getD "") ++ ":" ++ (r.maxFeePerGas.getD "") ++ ":" ++
    (r.maxPriorityFeePerGas.getD "") ++ ":" ++ (r.paymasterAndData.getD "")

/-- A middleware stage: receives the draft, returns the transformed draft (or
an error) together with the external calls it made. -/
def AccountMiddlewareFn : Type :=
  UserOperationStruct → Except ProviderError UserOperationStruct × List CallEvent

/-- Modelled from the spec: `asyncPipe` (utils.js, outside src/) composes the
stages strictly in list order, each stage receiving the previous stage's
output; an error stops the pipe. Call traces concatenate in order. -/
def asyncPipe : List AccountMiddlewareFn → AccountMiddlewareFn
  | [], s => (.ok s, [])
  | f :: fs, s =>
    match f s with
    | (.ok s2, t) =>
      let rest := asyncPipe fs s2
      (rest.1, t ++ rest.2)
    | (.error e, t) => (.error e, t)

/-- Default stage 1 (`dummyPaymasterDataMiddleware`): sets `paymasterAndData`
to the empty byte string. -/
def dummyPaymasterDataMiddleware : AccountMiddlewareFn := fun struct =>
  (.ok { struct with paymasterAndData := some ("0x") }, [])

/-- Default stage 4 (`paymasterMiddleware`): sets `paymasterAndData` to the
empty byte string. -/
def paymasterMiddleware : AccountMiddlewareFn := fun struct =>
  (.ok { struct with paymasterAndData := some ("0x") }, [])

/-- Default stage 2 (`gasEstimator`): hexlifies the current draft, asks the
bundler for gas estimates against the entry point, and writes the three gas
fields back. -/
def gasEstimator (rpcClient : BundlerClient) : AccountMiddlewareFn := fun struct =>
  let request := deepHexlify struct
  let estimates := rpcClient.estimateUserOperationGas request
  (.ok { struct with
          callGasLimit := some estimates.callGasLimit
          verificationGasLimit := some estimates.verificationGasLimit
          preVerificationGas := some estimates.preVerificationGas },
   [.estimateGas])

/-- Default stage 3 (`feeDataGetter`): queries the suggested priority fee and
the combined fee data; if either combined-fee value is falsy (absent or zero)
it throws; otherwise bids `suggested * 4 / 3` (bigint division truncating
toward zero) clamped up to `minPriorityFeePerBid`, and a fee cap of
`feeData.maxFeePerGas - feeData.maxPriorityFeePerGas + priorityFeeBid`. -/
def feeDataGetter (rpcClient : BundlerClient) (minPriorityFeePerBid : Int) :
    AccountMiddlewareFn := fun struct =>
  let maxPriorityFeePerGas := rpcClient.getMaxPriorityFeePerGas
  let feeData := rpcClient.getFeeData
  if !truthyInt feeData.maxFeePerGas || !truthyInt feeData.maxPriorityFeePerGas then
    (.error .invalidFeeData, [.getMaxPriorityFee, .getFeeDataCall])
  else
    let bid0 := Int.tdiv (maxPriorityFeePerGas * 4) 3
    let maxPriorityFeePerGasBid :=
      if bid0 < minPriorityFeePerBid then minPriorityFeePerBid else bid0
    let maxFeePerGasBid :=
      feeData.maxFeePerGas.getD 0 - feeData.maxPriorityFeePerGas.getD 0 +
        maxPriorityFeePerGasBid
    (.ok { struct with
            maxFeePerGas := some maxFeePerGasBid
            maxPriorityFeePerGas := some maxPriorityFeePerGasBid },
     [.getMaxPriorityFee, .getFeeDataCall])

/-- The provider (source class `SmartAccountProvider`). Field defaults follow
the constructor: `txMaxRetries` 5, `txRetryIntervalMs` 2000,
`minPriorityFeePerBid` 1000000000, no bound account, and the four default
middleware stages closing over the client and configuration. The middleware
fields model the class's overridable stage bindings (`withX` rebinds them). -/
structure SmartAccountProvider where
  rpcClient : BundlerClient
  entryPointAddress : String
  chainId : Nat
  account : Option Account := none
  txMaxRetries : Nat := 5
  txRetryIntervalMs : Nat := 2000
  minPriorityFeePerBid : Int := 1000000000
  dummyPaymasterDataMiddleware : AccountMiddlewareFn :=
    AASdk.dummyPaymasterDataMiddleware
  gasEstimator : AccountMiddlewareFn := AASdk.gasEstimator rpcClient
  feeDataGetter : AccountMiddlewareFn :=
    AASdk.feeDataGetter rpcClient minPriorityFeePerBid
  paymasterMiddleware : AccountMiddlewareFn := AASdk.paymasterMiddleware

namespace SmartAccountProvider

/-- Source `withPaymasterMiddleware`: rebinds stages 1 and 4 (each only when an
override is supplied). -/
def withPaymasterMiddleware (p : SmartAccountProvider)
    (dummyPaymasterMiddleware : Option AccountMiddlewareFn)
    (getPaymasterAndDataMiddleware : Option AccountMiddlewareFn) :
    SmartAccountProvider :=
  { p with
     dummyPaymasterDataMiddleware :=
       dummyPaymasterMiddleware.getD p.dummyPaymasterDataMiddleware
     paymasterMiddleware :=
       getPaymasterAndDataMiddleware.getD p.paymasterMiddleware }

/-- Source `withGasEstimator`: rebinds stage 2. -/
def withGasEstimator (p : SmartAccountProvider) (override : AccountMiddlewareFn) :
    SmartAccountProvider :=
  { p with gasEstimator := override }

/-- Source `withFeeDataGetter`: rebinds stage 3. -/
def withFeeDataGetter (p : SmartAccountProvider) (override : AccountMiddlewareFn) :
    SmartAccountProvider :=
  { p with feeDataGetter := override }

/-- Source `connect`: binds the account produced from the rpc client. -/
def connect (p : SmartAccountProvider) (fn : BundlerClient → Account) :
    SmartAccountProvider :=
  { p with account := some (fn p.rpcClient) }

/-- Source `getAddress`: the bound account's address, or AccountNotConnectedError. -/
def getAddress (p : SmartAccountProvider) : Except ProviderError String :=
  match p.account with
  | none => .error .accountNotConnected
  | some account => .ok account.address

/-- The loop body of `waitForUserOperationTransaction`, structurally recursive
on the remaining retry budget (`remaining = txMaxRetries - i` mirrors the
source's `for (let i = 0; i < txMaxRetries; i++)`). Each iteration first
suspends for `txRetryIntervalMs`, then looks the receipt up (a rejected lookup
collapsing to `none`), returning the chain transaction's hash resolved through
the receipt's `transactionHash` on success and ConfirmationTimeoutError once
the budget is exhausted. -/
def waitForUserOperationTransactionLoop (p : SmartAccountProvider)
    (hash : String) : Nat → Nat → Except ProviderError String × List CallEvent
  | _, 0 => (.error .confirmationTimeout, [])
  | i, remaining + 1 =>
    match catchToNull (p.rpcClient.getUserOperationReceipt i hash) with
    | some receipt =>
      (.ok (p.rpcClient.getTransaction receipt.receipt.transactionHash).hash,
       [.delay p.txRetryIntervalMs, .getReceiptCall i,
        .getTransactionCall receipt.receipt.transactionHash])
    | none =>
      let next := waitForUserOperationTransactionLoop p hash (i + 1) remaining
      (next.1, .delay p.txRetryIntervalMs :: .getReceiptCall i :: next.2)

/-- Source `waitForUserOperationTransaction`: the confirmation poller, started at
attempt 0 with the full retry budget. -/
def waitForUserOperationTransaction (p : SmartAccountProvider) (hash : String) :
    Except ProviderError String × List CallEvent :=
  waitForUserOperationTransactionLoop p hash 0 p.txMaxRetries

/-- The initial draft built inside `sendUserOperation` from the bound account:
init code, sender, nonce, encoded call data (value defaulting to zero) and the
dummy signature; every other field unset. -/
def initialStruct (account : Account) (target : String) (data : String)
    (value : Option Int) : UserOperationStruct where
  sender := some account.address
  nonce := some account.nonce
  initCode := some account.initCode
  callData := some (account.encodeExecute target (value.getD 0) data)
  callGasLimit := none
  verificationGasLimit := none
  preVerificationGas := none
  maxFeePerGas := none
  maxPriorityFeePerGas := none
  paymasterAndData := none
  signature := some account.dummySignature

/-- The submission result (source `SendUserOperationResult`): the submission
hash paired with the request as sent. -/
structure SendUserOperationResult where
  hash : String
  request : UserOperationRequest
deriving DecidableEq, Repr

/-- Source `sendUserOperation`: fails with AccountNotConnectedError when no account
is bound (before any external call); otherwise assembles the initial draft,
pipes it through the four bound middleware stages in order, hexlifies the
result, rejects an incomplete request with IncompleteRequestError carrying the
serialized partial request, and otherwise signs the protocol hash with the
account and submits to the bundler. -/
def sendUserOperation (p : SmartAccountProvider) (target : String)
    (data : String) (value : Option Int) :
    Except ProviderError SendUserOperationResult × List CallEvent :=
  match p.account with
  | none => (.error .accountNotConnected, [])
  | some account =>
    let piped := asyncPipe
      [p.dummyPaymasterDataMiddleware, p.gasEstimator, p.feeDataGetter,
       p.paymasterMiddleware] (initialStruct account target data value)
    match piped with
    | (.error e, t) => (.error e, t)
    | (.ok uoStruct, t) =>
      let request := deepHexlify uoStruct
      if isValidRequest request then
        let hash := getUserOperationHash request p.entryPointAddress p.chainId
        let signed := { request with signature := some (account.signMessage hash) }
        (.ok { hash := p.rpcClient.sendUserOperation signed, request := signed },
         t ++ [.signMessageCall hash, .submit])
      else
        (.error (.incompleteRequest request), t)

/-- Source `sendTransaction`: the transaction façade. Rejects a request without a
target address with InvalidRecipientError before any external call; otherwise
runs `sendUserOperation` with target = `to`, payload = `data` or the empty
byte string, value = the decoded value or zero, then feeds the submission hash
into the confirmation poller. -/
def sendTransaction (p : SmartAccountProvider) (request : RpcTransactionRequest) :
    Except ProviderError String × List CallEvent :=
  match request.toAddress with
  | none => (.error .invalidRecipient, [])
  | some target =>
    let sent := p.sendUserOperation target (request.data.getD ("0x"))
      (some (request.value.getD 0))
    match sent with
    | (.error e, t) => (.error e, t)
    | (.ok result, t) =>
      let confirmed := p.waitForUserOperationTransaction result.hash
      (confirmed.1, t ++ confirmed.2)

/-- The outcome of the raw `request` endpoint. -/
inductive RpcOutcome where
  | txHash (h : String)
  | signature (sig : String)
  | forwarded (response : String)
deriving DecidableEq, Repr

/-- The `eth_sendTransaction` arm of the dispatch: destructures the first
param as the transaction and runs the façade. A malformed `params` array
(which would raise a TypeError in the source) is modelled as `badParams`. -/
def requestSendTransactionCase (p : SmartAccountProvider)
    (params : List RpcParam) : Except ProviderError RpcOutcome × List CallEvent :=
  match params with
  | .tx t :: _ =>
    let sent := p.sendTransaction t
    match sent with
    | (.ok h, tr) => (.ok (.txHash h), tr)
    | (.error e, tr) => (.error e, tr)
  | _ => (.error .badParams, [])

/-- The `eth_sign`/`personal_sign` arm of the dispatch, reached with a bound
account: destructures data and address, rejects an address other than the
bound account's with the signer-mismatch error, otherwise signs the data.
A `params` array not carrying two strings (whose behavior in the source
depends on the external signer receiving a non-string) is modelled as
`badParams`. -/
def requestSignCase (account : Account) (params : List RpcParam) :
    Except ProviderError RpcOutcome × List CallEvent :=
  match params with
  | .str data :: .str address :: _ =>
    if address ≠ account.address then (.error .signerMismatch, [])
    else (.ok (.signature (account.signMessage data)), [])
  | _ => (.error .badParams, [])

/-- Source `request`: RPC dispatch. `eth_sendTransaction` goes to the façade;
`eth_sign`/`personal_sign` require a bound account and an address equal to the
bound account's, and sign the supplied data; every other method is forwarded
unmodified to the rpc client. -/
def request (p : SmartAccountProvider) (method : String) (params : List RpcParam) :
    Except ProviderError RpcOutcome × List CallEvent :=
  if method = "eth_sendTransaction" then
    requestSendTransactionCase p params
  else if method = "eth_sign" ∨ method = "personal_sign" then
    match p.account with
    | none => (.error .accountNotConnected, [])
    | some account => requestSignCase account params
  else
    (.ok (.forwarded (p.rpcClient.request method params)), [.rpcRequest method])

end SmartAccountProvider

/-- A concrete account stub for witnesses. -/
def stubAccount : Account where
  address := "0xsender"
  nonce := 7
  initCode := "0xinit"
  encodeExecute := fun target value data =>
    "exec:" ++ target ++ ":" ++ toString value ++ ":" ++ data
  dummySignature := "0xdummysig"
  signMessage := fun m => "sig:" ++ m

/-- A concrete receipt stub for witnesses. -/
def stubReceipt : UserOperationReceipt where
  receipt := { transactionHash := "0xchain" }

/-- A concrete bundler-client stub for witnesses: fee data 5 gwei / 2 gwei,
suggested priority fee 1 gwei, receipts found from the third lookup on. -/
def stubClient : BundlerClient where
  estimateUserOperationGas := fun _ =>
    { callGasLimit := 21000, verificationGasLimit := 100000,
      preVerificationGas := 50000 }
  getMaxPriorityFeePerGas := 1000000000
  getFeeData :=
    { maxFeePerGas := some 5000000000, maxPriorityFeePerGas := some 2000000000 }
  sendUserOperation := fun _ => "0xuohash"
  getUserOperationReceipt := fun i _ =>
    if i < 2 then .notFound else .found stubReceipt
  getTransaction := fun h => { hash := h }
  request := fun method _ => "resp:" ++ method

/-- A stub provider with the default configuration and a bound account. -/
def stubProvider : SmartAccountProvider where
  rpcClient := stubClient
  entryPointAddress := "0xentry"
  chainId := 11155111
  account := some stubAccount

/-- The stub provider with no bound account. -/
def stubProviderNoAccount : SmartAccountProvider :=
  { stubProvider with account := none }

/-- A client whose receipt lookup always rejects (the poller must time out). -/
def stubClientNever : BundlerClient :=
  { stubClient with getUserOperationReceipt := fun _ _ => .lookupFailed }

/-- A provider over the always-rejecting client. -/
def stubProviderNever : SmartAccountProvider :=
  { stubProvider with rpcClient := stubClientNever }

/-- A client whose combined fee data is present but zero (JS-falsy). -/
def stubClientZeroFees : BundlerClient :=
  { stubClient with
     getFeeData := { maxFeePerGas := some 0, maxPriorityFeePerGas := some 0 } }

/-- A concrete draft used by witnesses: the request assembler's output for the
stub account. -/
def stubDraft : UserOperationStruct :=
  SmartAccountProvider.initialStruct stubAccount ("0xto") ("0xdata") none

end AASdk

namespace AASdk

/-- Clamping a bid upward to a minimum is taking a maximum. -/
theorem clamp_eq_max (bid0 minBid : Int) :
    (if bid0 < minBid then minBid else bid0) = max bid0 minBid := by
  rcases lt_or_ge bid0 minBid with h | h
  · rw [if_pos h, max_eq_right (le_of_lt h)]
  · rw [if_neg (not_lt.mpr h), max_eq_left h]

/-- C1 (counterexample to the claim as stated): fee data in which both
combined-fee values are present (`isSome`) but equal to zero. The claim says
the stage must set the two bid fields whenever both values are present; the
source's JS falsiness check (`!feeData.maxFeePerGas ||
!feeData.maxPriorityFeePerGas`) treats a present `0n` as missing, so the stage
throws InvalidFeeDataError instead. -/
theorem feeData_zero_present_counterexample :
    stubClientZeroFees.getFeeData.maxFeePerGas.isSome = true ∧
    stubClientZeroFees.getFeeData.maxPriorityFeePerGas.isSome = true ∧
    (feeDataGetter stubClientZeroFees 1000000000 stubDraft).1 =
      .error .invalidFeeData := by
  refine ⟨rfl, rfl, rfl⟩

/-- C1 (amended): the fee-data stage fails with InvalidFeeDataError if either
combined-fee value is absent or zero (JS falsiness); for fee data in which
both values are present and nonzero, and a suggested priority fee s ≥ 0, it
sets the draft's maxPriorityFeePerGas to max(s*4 truncated-divided by 3,
minPriorityFeePerBid) (`Int.tdiv` truncates toward zero, the floor on these
nonnegative inputs) and maxFeePerGas to (feeData.maxFeePerGas −
feeData.maxPriorityFeePerGas) + that bid; on the concrete scenario (s = 1
gwei, minimum 1 gwei, fee data 5 gwei / 2 gwei) the bids are 1333333333 and
4333333333. -/
theorem feeDataGetter_bid_spec :
    (∀ (c : BundlerClient) (minBid : Int) (s : UserOperationStruct),
      (c.getFeeData.maxFeePerGas = none ∨ c.getFeeData.maxFeePerGas = some 0 ∨
       c.getFeeData.maxPriorityFeePerGas = none ∨
       c.getFeeData.maxPriorityFeePerGas = some 0) →
      (feeDataGetter c minBid s).1 = .error .invalidFeeData) ∧
    (∀ (c : BundlerClient) (minBid : Int) (s : UserOperationStruct)
       (mf mpf : Int),
      c.getFeeData.maxFeePerGas = some mf → mf ≠ 0 →
      c.getFeeData.maxPriorityFeePerGas = some mpf → mpf ≠ 0 →
      0 ≤ c.getMaxPriorityFeePerGas →
      (feeDataGetter c minBid s).1 = .ok { s with
        maxFeePerGas := some (mf - mpf +
          max (Int.tdiv (c.getMaxPriorityFeePerGas * 4) 3) minBid)
        maxPriorityFeePerGas :=
          some (max (Int.tdiv (c.getMaxPriorityFeePerGas * 4) 3) minBid) }) ∧
    ((feeDataGetter stubClient 1000000000 stubDraft).1 = .ok { stubDraft with
        maxFeePerGas := some 4333333333
        maxPriorityFeePerGas := some 1333333333 }) := by
  refine ⟨?_, ?_, rfl⟩
  · intro c minBid s h
    have hcond : (!truthyInt c.getFeeData.maxFeePerGas ||
        !truthyInt c.getFeeData.maxPriorityFeePerGas) = true := by
      rcases h with h | h | h | h <;> rw [h] <;> simp [truthyInt]
    simp [feeDataGetter, hcond]
  · intro c minBid s mf mpf hmf hmf0 hmpf hmpf0 _
    simp only [feeDataGetter, hmf, hmpf, Option.getD_some, clamp_eq_max]
    rw [if_neg (by simp [truthyInt, hmf0, hmpf0])]

/-- C1 witness: the amended specification evaluated at concrete inputs — the
zero-fee stub fails, and the 5 gwei / 2 gwei stub with suggested fee 1 gwei
and minimum 1 gwei produces the bids 1333333333 and 4333333333. -/
theorem feeDataGetter_bid_spec_witness :
    (feeDataGetter stubClientZeroFees 1000000000 stubDraft).1 =
      .error .invalidFeeData ∧
    (feeDataGetter stubClient 1000000000 stubDraft).1 = .ok { stubDraft with
      maxFeePerGas := some (5000000000 - 2000000000 +
        max (Int.tdiv (stubClient.getMaxPriorityFeePerGas * 4) 3) 1000000000)
      maxPriorityFeePerGas :=
        some (max (Int.tdiv (stubClient.getMaxPriorityFeePerGas * 4) 3)
          1000000000) } :=
  ⟨feeDataGetter_bid_spec.1 stubClientZeroFees 1000000000 stubDraft
      (Or.inr (Or.inl rfl)),
   feeDataGetter_bid_spec.2.1 stubClient 1000000000 stubDraft
      5000000000 2000000000 rfl (by decide) rfl (by decide) (by decide)⟩

/-- C9: each default middleware stage modifies only its designated fields.
The dummy-paymaster and final paymaster stages write only `paymasterAndData`
(to the empty byte string), the gas estimator writes only the three gas
fields (to the bundler's estimates for the hexlified draft), and the fee-data
stage, when it succeeds, writes only the two fee fields; every other field of
the incoming draft is returned unchanged. -/
theorem middleware_frame_spec :
    (∀ (s d : UserOperationStruct),
      (dummyPaymasterDataMiddleware s).1 = .ok d →
      d.paymasterAndData = some ("0x") ∧ d.sender = s.sender ∧
      d.nonce = s.nonce ∧ d.initCode = s.initCode ∧ d.callData = s.callData ∧
      d.callGasLimit = s.callGasLimit ∧
      d.verificationGasLimit = s.verificationGasLimit ∧
      d.preVerificationGas = s.preVerificationGas ∧
      d.maxFeePerGas = s.maxFeePerGas ∧
      d.maxPriorityFeePerGas = s.maxPriorityFeePerGas ∧
      d.signature = s.signature) ∧
    (∀ (s d : UserOperationStruct),
      (paymasterMiddleware s).1 = .ok d →
      d.paymasterAndData = some ("0x") ∧ d.sender = s.sender ∧
      d.nonce = s.nonce ∧ d.initCode = s.initCode ∧ d.callData = s.callData ∧
      d.callGasLimit = s.callGasLimit ∧
      d.verificationGasLimit = s.verificationGasLimit ∧
      d.preVerificationGas = s.preVerificationGas ∧
      d.maxFeePerGas = s.maxFeePerGas ∧
      d.maxPriorityFeePerGas = s.maxPriorityFeePerGas ∧
      d.signature = s.signature) ∧
    (∀ (c : BundlerClient) (s d : UserOperationStruct),
      (gasEstimator c s).1 = .ok d →
      d.callGasLimit =
        some (c.estimateUserOperationGas (deepHexlify s)).callGasLimit ∧
      d.verificationGasLimit =
        some (c.estimateUserOperationGas (deepHexlify s)).verificationGasLimit ∧
      d.preVerificationGas =
        some (c.estimateUserOperationGas (deepHexlify s)).preVerificationGas ∧
      d.sender = s.sender ∧ d.nonce = s.nonce ∧ d.initCode = s.initCode ∧
      d.callData = s.callData ∧ d.maxFeePerGas = s.maxFeePerGas ∧
      d.maxPriorityFeePerGas = s.maxPriorityFeePerGas ∧
      d.paymasterAndData = s.paymasterAndData ∧
      d.signature = s.signature) ∧
    (∀ (c : BundlerClient) (minBid : Int) (s d : UserOperationStruct),
      (feeDataGetter c minBid s).1 = .ok d →
      d.maxFeePerGas.isSome = true ∧ d.maxPriorityFeePerGas.isSome = true ∧
      d.sender = s.sender ∧ d.nonce = s.nonce ∧ d.initCode = s.initCode ∧
      d.callData = s.callData ∧ d.callGasLimit = s.callGasLimit ∧
      d.verificationGasLimit = s.verificationGasLimit ∧
      d.preVerificationGas = s.preVerificationGas ∧
      d.paymasterAndData = s.paymasterAndData ∧
      d.signature = s.signature) := by
  refine ⟨?_, ?_, ?_, ?_⟩
  · intro s d h
    rw [dummyPaymasterDataMiddleware] at h
    injection h with h
    subst h
    exact ⟨rfl, rfl, rfl, rfl, rfl, rfl, rfl, rfl, rfl, rfl, rfl⟩
  · intro s d h
    rw [paymasterMiddleware] at h
    injection h with h
    subst h
    exact ⟨rfl, rfl, rfl, rfl, rfl, rfl, rfl, rfl, rfl, rfl, rfl⟩
  · intro c s d h
    simp only [gasEstimator] at h
    injection h with h
    subst h
    exact ⟨rfl, rfl, rfl, rfl, rfl, rfl, rfl, rfl, rfl, rfl, rfl⟩
  · intro c minBid s d h
    simp only [feeDataGetter] at h
    by_cases hcond : (!truthyInt c.getFeeData.maxFeePerGas ||
        !truthyInt c.getFeeData.maxPriorityFeePerGas) = true
    · rw [if_pos hcond] at h
      exact absurd h (by simp)
    · rw [if_neg hcond] at h
      injection h with h
      subst h
      exact ⟨rfl, rfl, rfl, rfl, rfl, rfl, rfl, rfl, rfl, rfl, rfl⟩

/-- C9 witness: the frame property evaluated at the stub draft and the stub
client with the default minimum bid. -/
theorem middleware_frame_spec_witness :
    ({ stubDraft with paymasterAndData := some ("0x") } :
        UserOperationStruct).paymasterAndData = some ("0x") ∧
    ({ stubDraft with
        maxFeePerGas := some 4333333333
        maxPriorityFeePerGas := some 1333333333 } :
      UserOperationStruct).maxFeePerGas.isSome = true := by
  refine ⟨(middleware_frame_spec.1 stubDraft _ rfl).1, ?_⟩
  exact (middleware_frame_spec.2.2.2 stubClient 1000000000 stubDraft
    { stubDraft with
       maxFeePerGas := some 4333333333
       maxPriorityFeePerGas := some 1333333333 } rfl).1

/-- C4: whenever the fee-data stage succeeds on fee data with both values
present, the priority-fee bid it writes is at least
max(suggested*4 truncated-divided by 3, minPriorityFeePerBid), and the
difference between the written maxFeePerGas bid and maxPriorityFeePerGas bid
equals feeData.maxFeePerGas − feeData.maxPriorityFeePerGas exactly. -/
theorem feeBid_invariant :
    ∀ (c : BundlerClient) (minBid : Int) (s d : UserOperationStruct)
      (t : List CallEvent) (mf mpf : Int),
      feeDataGetter c minBid s = (.ok d, t) →
      c.getFeeData.maxFeePerGas = some mf →
      c.getFeeData.maxPriorityFeePerGas = some mpf →
      0 ≤ c.getMaxPriorityFeePerGas →
      ∃ pBid fBid, d.maxPriorityFeePerGas = some pBid ∧
        d.maxFeePerGas = some fBid ∧
        max (Int.tdiv (c.getMaxPriorityFeePerGas * 4) 3) minBid ≤ pBid ∧
        fBid - pBid = mf - mpf := by
  intro c minBid s d t mf mpf h hmf hmpf _
  simp only [feeDataGetter, hmf, hmpf, Option.getD_some, clamp_eq_max] at h
  by_cases hcond : (!truthyInt (some mf) || !truthyInt (some mpf)) = true
  · rw [if_pos hcond] at h
    injection h with h1 _
    exact absurd h1 (by simp)
  · rw [if_neg hcond] at h
    injection h with h1 _
    injection h1 with h1
    subst h1
    exact ⟨_, _, rfl, rfl, le_refl _, by ring⟩

/-- C4 witness: the invariant holds at the concrete stub (suggested 1 gwei,
minimum bid 1 gwei, fee data 5 gwei / 2 gwei). -/
theorem feeBid_invariant_witness :
    ∃ pBid fBid,
      ({ stubDraft with
          maxFeePerGas := some 4333333333
          maxPriorityFeePerGas := some 1333333333 } :
        UserOperationStruct).maxPriorityFeePerGas = some pBid ∧
      ({ stubDraft with
          maxFeePerGas := some 4333333333
          maxPriorityFeePerGas := some 1333333333 } :
        UserOperationStruct).maxFeePerGas = some fBid ∧
      max (Int.tdiv (stubClient.getMaxPriorityFeePerGas * 4) 3) 1000000000 ≤ pBid ∧
      fBid - pBid = 5000000000 - 2000000000 :=
  feeBid_invariant stubClient 1000000000 stubDraft
    { stubDraft with
       maxFeePerGas := some 4333333333
       maxPriorityFeePerGas := some 1333333333 }
    [CallEvent.getMaxPriorityFee, CallEvent.getFeeDataCall]
    5000000000 2000000000 rfl rfl rfl (by decide)

/-- C3: starting from the request assembler's draft for a bound account
(sender, nonce, initCode, callData and dummy signature set), the four default
middleware stages applied in the fixed order dummy-paymaster, gas-estimator,
fee-data, paymaster — with successful bundler responses, i.e. fee data whose
two values are present and nonzero — produce a draft in which every
UserOperation field is defined, so the validator is never reached with a
missing field (the hexlified draft passes `isValidRequest`). -/
theorem defaultPipeline_complete :
    ∀ (c : BundlerClient) (minBid : Int) (account : Account)
      (target data : String) (value : Option Int) (mf mpf : Int),
      c.getFeeData.maxFeePerGas = some mf → mf ≠ 0 →
      c.getFeeData.maxPriorityFeePerGas = some mpf → mpf ≠ 0 →
      ∃ (d : UserOperationStruct) (t : List CallEvent),
        asyncPipe [dummyPaymasterDataMiddleware, gasEstimator c,
            feeDataGetter c minBid, paymasterMiddleware]
          (SmartAccountProvider.initialStruct account target data value) =
          (.ok d, t) ∧
        isCompleteDraft d = true ∧ isValidRequest (deepHexlify d) = true := by
  intro c minBid account target data value mf mpf hmf hmf0 hmpf hmpf0
  simp only [asyncPipe, dummyPaymasterDataMiddleware, gasEstimator,
    feeDataGetter, paymasterMiddleware, hmf, hmpf, Option.getD_some]
  rw [if_neg (by simp [truthyInt, hmf0, hmpf0])]
  exact ⟨_, _, rfl, rfl, rfl⟩

/-- C3 witness: the default pipeline is complete on the concrete stub client
and account. -/
theorem defaultPipeline_complete_witness :
    ∃ (d : UserOperationStruct) (t : List CallEvent),
      asyncPipe [dummyPaymasterDataMiddleware, gasEstimator stubClient,
          feeDataGetter stubClient 1000000000, paymasterMiddleware]
        (SmartAccountProvider.initialStruct stubAccount ("0xto") ("0xdata")
          none) = (.ok d, t) ∧
      isCompleteDraft d = true ∧ isValidRequest (deepHexlify d) = true :=
  defaultPipeline_complete stubClient 1000000000 stubAccount ("0xto") ("0xdata")
    none 5000000000 2000000000 rfl (by decide) rfl (by decide)

/-- The call trace of n consecutive unsuccessful poll iterations starting at
attempt i: one fixed delay followed by one receipt lookup per iteration. -/
def pollTrace (interval : Nat) : Nat → Nat → List CallEvent
  | _, 0 => []
  | i, n + 1 =>
    .delay interval :: .getReceiptCall i :: pollTrace interval (i + 1) n

/-- Recognizes a receipt-lookup event. -/
def isReceiptLookup : CallEvent → Bool
  | .getReceiptCall _ => true
  | _ => false

/-- Recognizes a delay event. -/
def isDelayEvent : CallEvent → Bool
  | .delay _ => true
  | _ => false

theorem pollTrace_countP_lookup (interval : Nat) :
    ∀ (n i : Nat), List.countP isReceiptLookup (pollTrace interval i n) = n := by
  intro n
  induction n with
  | zero => intro i; rfl
  | succ n ih =>
    intro i
    simp [pollTrace, List.countP_cons, isReceiptLookup, isDelayEvent, ih (i + 1)]

theorem pollTrace_countP_delay (interval : Nat) :
    ∀ (n i : Nat), List.countP isDelayEvent (pollTrace interval i n) = n := by
  intro n
  induction n with
  | zero => intro i; rfl
  | succ n ih =>
    intro i
    simp [pollTrace, List.countP_cons, isReceiptLookup, isDelayEvent, ih (i + 1)]

open SmartAccountProvider in
/-- If every lookup from attempt i through the rest of the budget yields no
receipt, the loop performs every remaining iteration (delay then lookup) and
times out. -/
theorem waitLoop_timeout (p : SmartAccountProvider) (hash : String) :
    ∀ (n i : Nat),
      (∀ j, i ≤ j → j < i + n →
        catchToNull (p.rpcClient.getUserOperationReceipt j hash) = none) →
      waitForUserOperationTransactionLoop p hash i n =
        (.error .confirmationTimeout, pollTrace p.txRetryIntervalMs i n) := by
  intro n
  induction n with
  | zero => intro i _; rfl
  | succ n ih =>
    intro i hnone
    have h0 : catchToNull (p.rpcClient.getUserOperationReceipt i hash) = none :=
      hnone i (le_refl i) (by omega)
    simp only [waitForUserOperationTransactionLoop, h0,
      ih (i + 1) (fun j hj1 hj2 => hnone j (by omega) (by omega))]
    rfl

open SmartAccountProvider in
/-- If the lookups before attempt k yield no receipt and attempt k (within
budget) yields receipt r, the loop performs the k unsuccessful iterations,
then a final delay, lookup and transaction resolution. -/
theorem waitLoop_success (p : SmartAccountProvider) (hash : String) (k : Nat)
    (r : UserOperationReceipt)
    (hk : catchToNull (p.rpcClient.getUserOperationReceipt k hash) = some r) :
    ∀ (n i : Nat), i ≤ k → k < i + n →
      (∀ j, i ≤ j → j < k →
        catchToNull (p.rpcClient.getUserOperationReceipt j hash) = none) →
      waitForUserOperationTransactionLoop p hash i n =
        (.ok (p.rpcClient.getTransaction r.receipt.transactionHash).hash,
         pollTrace p.txRetryIntervalMs i (k - i) ++
           [.delay p.txRetryIntervalMs, .getReceiptCall k,
            .getTransactionCall r.receipt.transactionHash]) := by
  intro n
  induction n with
  | zero => intro i h1 h2 _; omega
  | succ n ih =>
    intro i hik hkn hnone
    by_cases hi : i = k
    · subst hi
      simp only [waitForUserOperationTransactionLoop, hk, Nat.sub_self]
      rfl
    · have hilt : i < k := lt_of_le_of_ne hik hi
      have h0 : catchToNull (p.rpcClient.getUserOperationReceipt i hash) = none :=
        hnone i (le_refl i) hilt
      simp only [waitForUserOperationTransactionLoop, h0,
        ih (i + 1) hilt (by omega) (fun j hj1 hj2 => hnone j (by omega) hj2)]
      have hsub : k - i = (k - (i + 1)) + 1 := by omega
      rw [hsub]
      rfl

open SmartAccountProvider in
/-- In every run of the loop, the number of delays equals the number of
receipt lookups. -/
theorem waitLoop_counts (p : SmartAccountProvider) (hash : String) :
    ∀ (n i : Nat),
      List.countP isDelayEvent
        (waitForUserOperationTransactionLoop p hash i n).2 =
      List.countP isReceiptLookup
        (waitForUserOperationTransactionLoop p hash i n).2 := by
  intro n
  induction n with
  | zero => intro i; rfl
  | succ n ih =>
    intro i
    cases hcase : catchToNull (p.rpcClient.getUserOperationReceipt i hash) with
    | some r =>
      simp [waitForUserOperationTransactionLoop, hcase, List.countP_cons,
        isDelayEvent, isReceiptLookup]
    | none =>
      simp [waitForUserOperationTransactionLoop, hcase, List.countP_cons,
        isDelayEvent, isReceiptLookup, ih (i + 1)]

open SmartAccountProvider in
/-- A nonempty run of the loop begins with a delay event. -/
theorem waitLoop_head (p : SmartAccountProvider) (hash : String)
    (n i : Nat) (hn : 0 < n) :
    ((waitForUserOperationTransactionLoop p hash i n).2).head? =
      some (.delay p.txRetryIntervalMs) := by
  cases n with
  | zero => omega
  | succ n =>
    cases hcase : catchToNull (p.rpcClient.getUserOperationReceipt i hash) with
    | some r => simp [waitForUserOperationTransactionLoop, hcase]
    | none => simp [waitForUserOperationTransactionLoop, hcase]

open SmartAccountProvider in
/-- A run of the loop that times out has performed exactly its full budget of
iterations, each a delay followed by a lookup. -/
theorem waitLoop_timeout_shape (p : SmartAccountProvider) (hash : String) :
    ∀ (n i : Nat),
      (waitForUserOperationTransactionLoop p hash i n).1 =
        .error .confirmationTimeout →
      (waitForUserOperationTransactionLoop p hash i n).2 =
        pollTrace p.txRetryIntervalMs i n := by
  intro n
  induction n with
  | zero => intro i _; rfl
  | succ n ih =>
    intro i h
    cases hcase : catchToNull (p.rpcClient.getUserOperationReceipt i hash) with
    | some r =>
      rw [waitForUserOperationTransactionLoop] at h
      rw [hcase] at h
      simp at h
    | none =>
      rw [waitForUserOperationTransactionLoop] at h ⊢
      rw [hcase] at h ⊢
      simp only [pollTrace]
      simp only at h
      rw [ih (i + 1) h]
/-- C2: for every submission hash, if the receipt lookup yields no receipt —
not-found or a lookup error, both treated as "not yet available" — on each of
the first k < txMaxRetries attempts and a receipt on attempt k+1, the poller
makes exactly k+1 lookups and returns the hash of the chain transaction
resolved via the receipt's transaction-hash field; if no attempt within the
budget yields a receipt it makes exactly txMaxRetries lookups and fails with
ConfirmationTimeoutError; the defaults are txMaxRetries = 5 and
txRetryIntervalMs = 2000. -/
theorem waitForUserOperationTransaction_retry_spec :
    (∀ (p : SmartAccountProvider) (hash : String) (k : Nat)
       (r : UserOperationReceipt),
      k < p.txMaxRetries →
      (∀ j, j < k →
        p.rpcClient.getUserOperationReceipt j hash = .notFound ∨
        p.rpcClient.getUserOperationReceipt j hash = .lookupFailed) →
      p.rpcClient.getUserOperationReceipt k hash = .found r →
      (p.waitForUserOperationTransaction hash).1 =
        .ok (p.rpcClient.getTransaction r.receipt.transactionHash).hash ∧
      List.countP isReceiptLookup
        (p.waitForUserOperationTransaction hash).2 = k + 1) ∧
    (∀ (p : SmartAccountProvider) (hash : String),
      (∀ j, j < p.txMaxRetries →
        p.rpcClient.getUserOperationReceipt j hash = .notFound ∨
        p.rpcClient.getUserOperationReceipt j hash = .lookupFailed) →
      (p.waitForUserOperationTransaction hash).1 =
        .error .confirmationTimeout ∧
      List.countP isReceiptLookup
        (p.waitForUserOperationTransaction hash).2 = p.txMaxRetries) ∧
    (∀ (c : BundlerClient) (e : String) (n : Nat),
      ({ rpcClient := c, entryPointAddress := e, chainId := n } :
        SmartAccountProvider).txMaxRetries = 5 ∧
      ({ rpcClient := c, entryPointAddress := e, chainId := n } :
        SmartAccountProvider).txRetryIntervalMs = 2000) := by
  refine ⟨?_, ?_, fun c e n => ⟨rfl, rfl⟩⟩
  · intro p hash k r hk hbefore hfound
    have hnone : ∀ j, 0 ≤ j → j < k →
        catchToNull (p.rpcClient.getUserOperationReceipt j hash) = none := by
      intro j _ hj
      rcases hbefore j hj with h | h <;> rw [h] <;> rfl
    have hsome : catchToNull (p.rpcClient.getUserOperationReceipt k hash) =
        some r := by rw [hfound]; rfl
    rw [SmartAccountProvider.waitForUserOperationTransaction,
      waitLoop_success p hash k r hsome p.txMaxRetries 0 (Nat.zero_le k)
        (by omega) hnone]
    refine ⟨rfl, ?_⟩
    rw [List.countP_append, pollTrace_countP_lookup]
    simp [List.countP_cons, isReceiptLookup]
  · intro p hash hbefore
    have hnone : ∀ j, 0 ≤ j → j < 0 + p.txMaxRetries →
        catchToNull (p.rpcClient.getUserOperationReceipt j hash) = none := by
      intro j _ hj
      rcases hbefore j (by omega) with h | h <;> rw [h] <;> rfl
    rw [SmartAccountProvider.waitForUserOperationTransaction,
      waitLoop_timeout p hash p.txMaxRetries 0 hnone]
    exact ⟨rfl, pollTrace_countP_lookup p.txRetryIntervalMs p.txMaxRetries 0⟩

/-- C2 witness: the stub whose lookups find a receipt on the third attempt
(k = 2) resolves after exactly 3 lookups; the always-failing stub times out
after exactly its 5-lookup budget. -/
theorem waitForUserOperationTransaction_retry_spec_witness :
    ((stubProvider.waitForUserOperationTransaction ("0xuohash")).1 =
      .ok (stubProvider.rpcClient.getTransaction
        stubReceipt.receipt.transactionHash).hash ∧
     List.countP isReceiptLookup
       (stubProvider.waitForUserOperationTransaction ("0xuohash")).2 = 2 + 1) ∧
    ((stubProviderNever.waitForUserOperationTransaction ("0xuohash")).1 =
      .error .confirmationTimeout ∧
     List.countP isReceiptLookup
       (stubProviderNever.waitForUserOperationTransaction ("0xuohash")).2 =
       stubProviderNever.txMaxRetries) :=
  ⟨waitForUserOperationTransaction_retry_spec.1 stubProvider ("0xuohash") 2
      stubReceipt (by decide) (by decide) (by decide),
   waitForUserOperationTransaction_retry_spec.2.1 stubProviderNever
      ("0xuohash") (fun j _ => Or.inr rfl)⟩

/-- C10: in every run of the confirmation poller the number of delays equals
the number of receipt lookups; when the retry budget is positive the first
recorded event is a full-interval delay, so even an immediately available
receipt resolves no earlier than one interval after polling starts; and a run
that times out has the exact trace of txMaxRetries iterations, each one delay
followed by one lookup — txMaxRetries delays and txMaxRetries lookups. -/
theorem poller_delay_before_lookup :
    ∀ (p : SmartAccountProvider) (hash : String),
      List.countP isDelayEvent
        (p.waitForUserOperationTransaction hash).2 =
      List.countP isReceiptLookup
        (p.waitForUserOperationTransaction hash).2 ∧
      (0 < p.txMaxRetries →
        ((p.waitForUserOperationTransaction hash).2).head? =
          some (.delay p.txRetryIntervalMs)) ∧
      ((p.waitForUserOperationTransaction hash).1 =
          .error .confirmationTimeout →
        (p.waitForUserOperationTransaction hash).2 =
          pollTrace p.txRetryIntervalMs 0 p.txMaxRetries ∧
        List.countP isDelayEvent
          (p.waitForUserOperationTransaction hash).2 = p.txMaxRetries ∧
        List.countP isReceiptLookup
          (p.waitForUserOperationTransaction hash).2 = p.txMaxRetries) := by
  intro p hash
  refine ⟨waitLoop_counts p hash p.txMaxRetries 0, ?_, ?_⟩
  · intro hn
    exact waitLoop_head p hash p.txMaxRetries 0 hn
  · intro htimeout
    have hshape := waitLoop_timeout_shape p hash p.txMaxRetries 0 htimeout
    rw [SmartAccountProvider.waitForUserOperationTransaction, hshape]
    exact ⟨rfl, pollTrace_countP_delay p.txRetryIntervalMs p.txMaxRetries 0,
      pollTrace_countP_lookup p.txRetryIntervalMs p.txMaxRetries 0⟩

/-- C10 witness: the delay-before-lookup property evaluated on the
always-failing stub, whose run times out. -/
theorem poller_delay_before_lookup_witness :
    List.countP isDelayEvent
      (stubProviderNever.waitForUserOperationTransaction ("0xuohash")).2 =
    List.countP isReceiptLookup
      (stubProviderNever.waitForUserOperationTransaction ("0xuohash")).2 ∧
    ((stubProviderNever.waitForUserOperationTransaction ("0xuohash")).2).head? =
      some (.delay stubProviderNever.txRetryIntervalMs) ∧
    (stubProviderNever.waitForUserOperationTransaction ("0xuohash")).2 =
      pollTrace stubProviderNever.txRetryIntervalMs 0
        stubProviderNever.txMaxRetries :=
  ⟨(poller_delay_before_lookup stubProviderNever ("0xuohash")).1,
   (poller_delay_before_lookup stubProviderNever ("0xuohash")).2.1 (by decide),
   ((poller_delay_before_lookup stubProviderNever ("0xuohash")).2.2 rfl).1⟩

/-- A provider whose gas-estimator stage is overridden by the identity
middleware, so the pipeline leaves the gas fields unset. -/
def stubProviderNoGas : SmartAccountProvider :=
  stubProvider.withGasEstimator (fun s => (.ok s, []))

/-- The (incomplete) draft the overridden pipeline produces for the stub. -/
def stubIncompleteDraft : UserOperationStruct :=
  { stubDraft with
     paymasterAndData := some ("0x")
     maxFeePerGas := some 4333333333
     maxPriorityFeePerGas := some 1333333333 }

/-- The complete draft the default pipeline produces for the stub. -/
def stubCompleteDraft : UserOperationStruct :=
  { stubDraft with
     paymasterAndData := some ("0x")
     callGasLimit := some 21000
     verificationGasLimit := some 100000
     preVerificationGas := some 50000
     maxFeePerGas := some 4333333333
     maxPriorityFeePerGas := some 1333333333 }

/-- The signed wire request the stub provider submits for the complete
draft. -/
def stubSignedRequest : UserOperationRequest :=
  { deepHexlify stubCompleteDraft with
     signature := some (stubAccount.signMessage (getUserOperationHash
       (deepHexlify stubCompleteDraft) stubProvider.entryPointAddress
       stubProvider.chainId)) }

open SmartAccountProvider in
/-- C5: after the middleware pipeline completes with draft d, the submission
entry point hexlifies d and checks completeness: if any field is still unset
it fails with IncompleteRequestError carrying the serialized partial request,
and adds no signing or submission event beyond the pipeline's own trace; if
the hexlified request is complete, the entry point proceeds to exactly one
signing and one submission of the signed request, which is itself fully
populated — the completeness check is the single gate before signing. -/
theorem sendUserOperation_validation_gate :
    (∀ (p : SmartAccountProvider) (account : Account) (target data : String)
       (value : Option Int) (d : UserOperationStruct) (t : List CallEvent),
      p.account = some account →
      asyncPipe [p.dummyPaymasterDataMiddleware, p.gasEstimator,
          p.feeDataGetter, p.paymasterMiddleware]
        (initialStruct account target data value) = (.ok d, t) →
      isValidRequest (deepHexlify d) = false →
      p.sendUserOperation target data value =
        (.error (.incompleteRequest (deepHexlify d)), t)) ∧
    (∀ (p : SmartAccountProvider) (account : Account) (target data : String)
       (value : Option Int) (d : UserOperationStruct) (t : List CallEvent),
      p.account = some account →
      asyncPipe [p.dummyPaymasterDataMiddleware, p.gasEstimator,
          p.feeDataGetter, p.paymasterMiddleware]
        (initialStruct account target data value) = (.ok d, t) →
      isValidRequest (deepHexlify d) = true →
      p.sendUserOperation target data value =
        (.ok { hash := p.rpcClient.sendUserOperation
                 { deepHexlify d with
                    signature := some (account.signMessage
                      (getUserOperationHash (deepHexlify d)
                        p.entryPointAddress p.chainId)) }
               request := { deepHexlify d with
                    signature := some (account.signMessage
                      (getUserOperationHash (deepHexlify d)
                        p.entryPointAddress p.chainId)) } },
         t ++ [.signMessageCall (getUserOperationHash (deepHexlify d)
                 p.entryPointAddress p.chainId), .submit]) ∧
      isValidRequest { deepHexlify d with
        signature := some (account.signMessage
          (getUserOperationHash (deepHexlify d)
            p.entryPointAddress p.chainId)) } = true) := by
  constructor
  · intro p account target data value d t hacc hpipe hvalid
    simp only [sendUserOperation, hacc, hpipe, hvalid]
    rfl
  · intro p account target data value d t hacc hpipe hvalid
    constructor
    · simp only [sendUserOperation, hacc, hpipe, hvalid]
      rfl
    · rcases d with ⟨f1, f2, f3, f4, f5, f6, f7, f8, f9, f10, f11⟩
      simp only [isValidRequest, deepHexlify] at hvalid ⊢
      simp_all

/-- C5 witness: the provider with the identity gas estimator fails the gate
with the incomplete hexlified request; the default provider passes the gate,
signs once and submits once. -/
theorem sendUserOperation_validation_gate_witness :
    (stubProviderNoGas.sendUserOperation ("0xto") ("0xdata") none =
      (.error (.incompleteRequest (deepHexlify stubIncompleteDraft)),
       [.getMaxPriorityFee, .getFeeDataCall])) ∧
    (stubProvider.sendUserOperation ("0xto") ("0xdata") none =
      (.ok { hash := stubProvider.rpcClient.sendUserOperation stubSignedRequest
             request := stubSignedRequest },
       [.estimateGas, .getMaxPriorityFee, .getFeeDataCall] ++
         [.signMessageCall (getUserOperationHash
            (deepHexlify stubCompleteDraft) stubProvider.entryPointAddress
            stubProvider.chainId), .submit]) ∧
     isValidRequest stubSignedRequest = true) :=
  ⟨sendUserOperation_validation_gate.1 stubProviderNoGas stubAccount ("0xto")
     ("0xdata") none stubIncompleteDraft [.getMaxPriorityFee, .getFeeDataCall]
     rfl rfl rfl,
   sendUserOperation_validation_gate.2 stubProvider stubAccount ("0xto")
     ("0xdata") none stubCompleteDraft
     [.estimateGas, .getMaxPriorityFee, .getFeeDataCall] rfl rfl rfl⟩

open SmartAccountProvider in
/-- C6: with no bound account, the submission entry point fails with
AccountNotConnectedError having made no external call at all (empty call
trace, so no bundler estimate, fee query or submission), and so do
`getAddress` and the message-signing RPC methods; meanwhile any other RPC
method is still forwarded to the bundler client, so the provider stays usable
for read-only passthrough. -/
theorem accountNotConnected_guard :
    (∀ (p : SmartAccountProvider) (target data : String) (value : Option Int),
      p.account = none →
      p.sendUserOperation target data value =
        (.error .accountNotConnected, [])) ∧
    (∀ (p : SmartAccountProvider), p.account = none →
      p.getAddress = .error .accountNotConnected) ∧
    (∀ (p : SmartAccountProvider) (m : String) (params : List RpcParam),
      p.account = none → (m = "eth_sign" ∨ m = "personal_sign") →
      p.request m params = (.error .accountNotConnected, [])) ∧
    (∀ (p : SmartAccountProvider) (m : String) (params : List RpcParam),
      p.account = none → m ≠ "eth_sendTransaction" → m ≠ "eth_sign" →
      m ≠ "personal_sign" →
      p.request m params =
        (.ok (.forwarded (p.rpcClient.request m params)), [.rpcRequest m])) := by
  refine ⟨?_, ?_, ?_, ?_⟩
  · intro p target data value hacc
    simp only [sendUserOperation, hacc]
  · intro p hacc
    simp only [getAddress, hacc]
  · intro p m params hacc hm
    rcases hm with hm | hm <;> subst hm <;>
      · rw [request, if_neg (by decide), if_pos (by decide)]
        simp only [hacc]
  · intro p m params hacc h1 h2 h3
    rw [request, if_neg h1, if_neg (not_or.mpr ⟨h2, h3⟩)]

/-- C6 witness: the guard evaluated on the unbound stub provider. -/
theorem accountNotConnected_guard_witness :
    (stubProviderNoAccount.sendUserOperation ("0xto") ("0xdata") none =
      (.error .accountNotConnected, [])) ∧
    (stubProviderNoAccount.getAddress = .error .accountNotConnected) ∧
    (stubProviderNoAccount.request ("eth_sign") [] =
      (.error .accountNotConnected, [])) ∧
    (stubProviderNoAccount.request ("eth_chainId") [] =
      (.ok (.forwarded (stubProviderNoAccount.rpcClient.request
        ("eth_chainId") [])), [.rpcRequest ("eth_chainId")])) :=
  ⟨accountNotConnected_guard.1 stubProviderNoAccount ("0xto") ("0xdata") none
     rfl,
   accountNotConnected_guard.2.1 stubProviderNoAccount rfl,
   accountNotConnected_guard.2.2.1 stubProviderNoAccount ("eth_sign") [] rfl
     (Or.inl rfl),
   accountNotConnected_guard.2.2.2 stubProviderNoAccount ("eth_chainId") []
     rfl (by decide) (by decide) (by decide)⟩

open SmartAccountProvider in
/-- C7: the transaction façade fails immediately with InvalidRecipientError
and an empty call trace (no bundler interaction) when the request has no
target address; otherwise it runs the full construction pipeline with
target = `to`, payload = `data` or the empty byte string, and value = the
decoded value or zero, then feeds the submission hash into the confirmation
poller and returns the resolved chain transaction hash (and a construction
error propagates unchanged). -/
theorem sendTransaction_facade_spec :
    (∀ (p : SmartAccountProvider) (req : RpcTransactionRequest),
      req.toAddress = none →
      p.sendTransaction req = (.error .invalidRecipient, [])) ∧
    (∀ (p : SmartAccountProvider) (req : RpcTransactionRequest) (a : String)
       (res : SendUserOperationResult) (t1 : List CallEvent) (h : String)
       (t2 : List CallEvent),
      req.toAddress = some a →
      p.sendUserOperation a (req.data.getD ("0x")) (some (req.value.getD 0)) =
        (.ok res, t1) →
      p.waitForUserOperationTransaction res.hash = (.ok h, t2) →
      p.sendTransaction req = (.ok h, t1 ++ t2)) ∧
    (∀ (p : SmartAccountProvider) (req : RpcTransactionRequest) (a : String)
       (e : ProviderError) (t1 : List CallEvent),
      req.toAddress = some a →
      p.sendUserOperation a (req.data.getD ("0x")) (some (req.value.getD 0)) =
        (.error e, t1) →
      p.sendTransaction req = (.error e, t1)) := by
  refine ⟨?_, ?_, ?_⟩
  · intro p req hto
    simp only [sendTransaction, hto]
  · intro p req a res t1 h t2 hto hsend hwait
    simp only [sendTransaction, hto, hsend, hwait]
  · intro p req a e t1 hto hsend
    simp only [sendTransaction, hto, hsend]

/-- The draft the façade's pipeline starts from on the stub request
(payload defaulted to "0x", value defaulted to zero). -/
def stubTxDraft : UserOperationStruct :=
  SmartAccountProvider.initialStruct stubAccount ("0xto") ("0x") (some 0)

/-- The complete draft the default pipeline produces from `stubTxDraft`. -/
def stubTxCompleteDraft : UserOperationStruct :=
  { stubTxDraft with
     paymasterAndData := some ("0x")
     callGasLimit := some 21000
     verificationGasLimit := some 100000
     preVerificationGas := some 50000
     maxFeePerGas := some 4333333333
     maxPriorityFeePerGas := some 1333333333 }

/-- The signed wire request submitted for `stubTxCompleteDraft`. -/
def stubTxSignedRequest : UserOperationRequest :=
  { deepHexlify stubTxCompleteDraft with
     signature := some (stubAccount.signMessage (getUserOperationHash
       (deepHexlify stubTxCompleteDraft) stubProvider.entryPointAddress
       stubProvider.chainId)) }

/-- The submission result for the stub façade call. -/
def stubTxResult : SmartAccountProvider.SendUserOperationResult :=
  { hash := "0xuohash", request := stubTxSignedRequest }

/-- C7 witness: the façade on a request without a target address, and on the
stub request `{to := "0xto"}` whose pipeline, submission and confirmation all
succeed. -/
theorem sendTransaction_facade_spec_witness :
    (stubProvider.sendTransaction
       { toAddress := none, data := none, value := none } =
      (.error .invalidRecipient, [])) ∧
    (stubProvider.sendTransaction
       { toAddress := some "0xto", data := none, value := none } =
      (.ok "0xchain",
       [.estimateGas, .getMaxPriorityFee, .getFeeDataCall,
        .signMessageCall (getUserOperationHash
          (deepHexlify stubTxCompleteDraft) stubProvider.entryPointAddress
          stubProvider.chainId), .submit] ++
       [.delay 2000, .getReceiptCall 0, .delay 2000, .getReceiptCall 1,
        .delay 2000, .getReceiptCall 2, .getTransactionCall ("0xchain")])) :=
  ⟨sendTransaction_facade_spec.1 stubProvider
     { toAddress := none, data := none, value := none } rfl,
   sendTransaction_facade_spec.2.1 stubProvider
     { toAddress := some "0xto", data := none, value := none } ("0xto")
     stubTxResult
     [.estimateGas, .getMaxPriorityFee, .getFeeDataCall,
      .signMessageCall (getUserOperationHash
        (deepHexlify stubTxCompleteDraft) stubProvider.entryPointAddress
        stubProvider.chainId), .submit]
     ("0xchain")
     [.delay 2000, .getReceiptCall 0, .delay 2000, .getReceiptCall 1,
      .delay 2000, .getReceiptCall 2, .getTransactionCall ("0xchain")]
     rfl rfl rfl⟩

open SmartAccountProvider in
/-- C8: for the message-signing methods eth_sign and personal_sign, with a
bound account, a supplied address different from the bound account's address
fails with the signer-mismatch error, an equal address returns the account's
signature over the supplied data, and with no bound account the call fails
with AccountNotConnectedError; every method other than eth_sendTransaction,
eth_sign and personal_sign is forwarded unmodified to the bundler client. -/
theorem request_dispatch_spec :
    (∀ (p : SmartAccountProvider) (account : Account)
       (m data address : String) (rest : List RpcParam),
      p.account = some account → (m = "eth_sign" ∨ m = "personal_sign") →
      address ≠ account.address →
      p.request m (.str data :: .str address :: rest) =
        (.error .signerMismatch, [])) ∧
    (∀ (p : SmartAccountProvider) (account : Account)
       (m data address : String) (rest : List RpcParam),
      p.account = some account → (m = "eth_sign" ∨ m = "personal_sign") →
      address = account.address →
      p.request m (.str data :: .str address :: rest) =
        (.ok (.signature (account.signMessage data)), [])) ∧
    (∀ (p : SmartAccountProvider) (m : String) (params : List RpcParam),
      p.account = none → (m = "eth_sign" ∨ m = "personal_sign") →
      p.request m params = (.error .accountNotConnected, [])) ∧
    (∀ (p : SmartAccountProvider) (m : String) (params : List RpcParam),
      m ≠ "eth_sendTransaction" → m ≠ "eth_sign" → m ≠ "personal_sign" →
      p.request m params =
        (.ok (.forwarded (p.rpcClient.request m params)), [.rpcRequest m])) := by
  refine ⟨?_, ?_, ?_, ?_⟩
  · intro p account m data address rest hacc hm haddr
    rcases hm with hm | hm <;> subst hm <;>
      · rw [request, if_neg (by decide), if_pos (by decide)]
        simp only [hacc, requestSignCase]
        rw [if_pos haddr]
  · intro p account m data address rest hacc hm haddr
    rcases hm with hm | hm <;> subst hm <;>
      · rw [request, if_neg (by decide), if_pos (by decide)]
        simp only [hacc, requestSignCase]
        rw [if_neg (by simp [haddr])]
  · intro p m params hacc hm
    rcases hm with hm | hm <;> subst hm <;>
      · rw [request, if_neg (by decide), if_pos (by decide)]
        simp only [hacc]
  · intro p m params h1 h2 h3
    rw [request, if_neg h1, if_neg (not_or.mpr ⟨h2, h3⟩)]

/-- C8 witness: the dispatch evaluated on the stub provider — a mismatching
address, the matching address, the unbound provider, and a forwarded
method. -/
theorem request_dispatch_spec_witness :
    (stubProvider.request ("eth_sign")
       [.str ("0xdata"), .str ("0xother")] = (.error .signerMismatch, [])) ∧
    (stubProvider.request ("personal_sign")
       [.str ("0xdata"), .str ("0xsender")] =
      (.ok (.signature (stubAccount.signMessage ("0xdata"))), [])) ∧
    (stubProviderNoAccount.request ("personal_sign")
       [.str ("0xdata"), .str ("0xsender")] =
      (.error .accountNotConnected, [])) ∧
    (stubProvider.request ("eth_getBalance") [.str ("0xsender")] =
      (.ok (.forwarded (stubProvider.rpcClient.request ("eth_getBalance")
        [.str ("0xsender")])), [.rpcRequest ("eth_getBalance")])) :=
  ⟨request_dispatch_spec.1 stubProvider stubAccount ("eth_sign") ("0xdata")
     ("0xother") [] rfl (Or.inl rfl) (by decide),
   request_dispatch_spec.2.1 stubProvider stubAccount ("personal_sign")
     ("0xdata") ("0xsender") [] rfl (Or.inr rfl) rfl,
   request_dispatch_spec.2.2.1 stubProviderNoAccount ("personal_sign")
     [.str ("0xdata"), .str ("0xsender")] rfl (Or.inr rfl),
   request_dispatch_spec.2.2.2 stubProvider ("eth_getBalance")
     [.str ("0xsender")] (by decide) (by decide) (by decide)⟩

end AASdk
